import Mathlib

/-!
Verification development for `src/functions/carbon_black/cb_retrieve_av_logs.py`.

The Python function `_cb_retrieve_av_logs_function` is a generator that, given an
incident id and a hostname, looks up the host's Carbon Black sensor, waits for it
to be online, opens a live-response session, collects antivirus log files from two
candidate directories, packages them in a zip and posts the zip to the incident,
retrying up to `MAX_TIMEOUTS` times on `TimeoutError` after restarting the sensor.

The embedding below models the function as a deterministic trace transformer over
an environment (`Env`) that fixes the outcome of every external call (Carbon Black
sensor queries, live-response operations, Resilient REST calls).  The observable
behaviour — `StatusMessage` yields, `FunctionResult` yields, sensor lookups and
restarts, session opens/closes, zip-entry writes and attachment posts — is recorded
as a list of `Event`s.  The unbounded real-time polling loops of the availability
phase emit nothing observable and are abstracted by two booleans per attempt
(`initiallyOnline`, `comesOnline`); everything else follows the source line by line.
-/

namespace CbAvLogs

/-- Python `str.upper()`, modelled character-wise on the code points. -/
def pyUpper (s : String) : String := String.mk (s.data.map Char.toUpper)

/-- Python slicing `s[:n]`. -/
def pyTake (s : String) (n : Nat) : String := String.mk (s.data.take n)

/-- Python `len(s)`. -/
def pyLen (s : String) : Nat := s.data.length

/-- Line 57 of the source: `hostname = (hostname.upper())[:15]`. -/
def normalizeHostname (s : String) : String := pyTake (pyUpper s) 15

/-- Line 27: `MAX_TIMEOUTS = 3`. -/
def MAX_TIMEOUTS : Nat := 3

/-- Line 28: `DAYS_UNTIL_TIMEOUT = 3` (only enters the model through the
abstracted availability deadline). -/
def DAYS_UNTIL_TIMEOUT : Nat := 3

/-- The mutable `results` dict: keys `was_successful` and `hostname`, each
absent (`none`) until assigned. -/
structure RDict where
  was_successful : Option Bool := none
  hostname : Option String := none
deriving DecidableEq, Repr

/-- One observable step of the generator. -/
inductive Event where
  | status (msg : String)
  | result (r : RDict)
  | lookup (query : String)
  | openSession (sid : Nat)
  | closeSession (sid : Nat)
  | restartSensor
  | zipEntry (entryName : String)
  | attach (filename : String)
deriving DecidableEq, Repr

/-- The `StatusMessage` payloads of a trace. -/
def statusesOf (t : List Event) : List String :=
  t.filterMap fun e => match e with | .status m => some m | _ => none

/-- The `FunctionResult` payloads of a trace. -/
def resultsOf (t : List Event) : List RDict :=
  t.filterMap fun e => match e with | .result r => some r | _ => none

/-- The sensor-query strings of a trace. -/
def lookupsOf (t : List Event) : List String :=
  t.filterMap fun e => match e with | .lookup q => some q | _ => none

/-- The attachment filenames posted in a trace. -/
def attachmentsOf (t : List Event) : List String :=
  t.filterMap fun e => match e with | .attach n => some n | _ => none

/-- The zip entry names written in a trace. -/
def zipEntriesOf (t : List Event) : List String :=
  t.filterMap fun e => match e with | .zipEntry n => some n | _ => none

/-- How many times `sensor.restart_sensor()` ran in a trace. -/
def restartCount (t : List Event) : Nat :=
  t.countP fun e => decide (e = Event.restartSensor)

/-- How many times a session with id `sid` was opened in a trace. -/
def openCount (t : List Event) (sid : Nat) : Nat :=
  t.countP fun e => decide (e = Event.openSession sid)

/-- How many times `close()` was invoked on the session with id `sid`. -/
def closeCount (t : List Event) (sid : Nat) : Nat :=
  t.countP fun e => decide (e = Event.closeSession sid)

/-- One entry of a `session.list_directory(...)` reply: a filename and whether
`'DIRECTORY'` occurs in its attribute list. -/
structure DirEntry where
  filename : String
  isDirectory : Bool
deriving DecidableEq, Repr

/-- Outcome of one `session.list_directory(...)` call. -/
inductive ListingOutcome where
  | ok (entries : List DirEntry)
  | err
  | timeout
deriving DecidableEq, Repr

/-- Outcome of the `self.rest_client().get('/incidents/...')` call. -/
inductive IncidentOutcome where
  | found
  | notFound
  | unreachable
deriving DecidableEq, Repr

/-- Outcome of `cb.live_response.request_session(sensor.id)`. -/
inductive OpenOutcome where
  | ok (sid : Nat)
  | err (msg : String)
  | timeout
deriving DecidableEq, Repr

/-- Outcome of one `session.get_file(path)` call. -/
inductive FetchOutcome where
  | ok
  | err (msg : String)
  | timeout
deriving DecidableEq, Repr

/-- Outcome of `rest_client().post_attachment(...)`. -/
inductive PostOutcome where
  | ok
  | err (msg : String)
deriving DecidableEq, Repr

/-- External-call outcomes for one iteration of the retry loop. -/
structure AttemptEnv where
  /-- Whether `sensor.status == "Online"` at the first status check. -/
  initiallyOnline : Bool
  /-- If initially offline: whether it comes online before the 3-day deadline. -/
  comesOnline : Bool
  incident : IncidentOutcome
  sessionOpen : OpenOutcome
  loc1probe : ListingOutcome
  loc1glob : ListingOutcome
  loc2probe : ListingOutcome
  loc2glob : ListingOutcome
  fetch : String → FetchOutcome
  post : PostOutcome

/-- The whole external world for one invocation. -/
structure Env where
  /-- Whether the initial `cb.select(Sensor).where(...)` query is nonempty. -/
  sensorFound : Bool
  sensorId : Nat
  /-- The `sensor.hostname` attribute reported by Carbon Black. -/
  sensorHostname : String
  /-- External-call outcomes of attempt number `k` (`k` = timeouts so far). -/
  attempt : Nat → AttemptEnv

/-- First candidate log location (Microsoft Antimalware). -/
def msAvDir : String := "C:\\ProgramData\\Microsoft\\Microsoft Antimalware\\Support"

/-- Second candidate log location (Windows Defender). -/
def wdAvDir : String := "C:\\ProgramData\\Microsoft\\Windows Defender\\Support"

/-- Python `each_file.replace('\\', os.sep)` with posix `os.sep`. -/
def winToPosix (s : String) : String :=
  String.mk (s.data.map fun c => if c = '\\' then '/' else c)

/-- Python `os.path.basename` on a posix path: the text after the last slash. -/
def posixBasename (s : String) : String :=
  s.data.foldl (fun acc c => if c = '/' then "" else acc.push c) ""

/-- Line 149 of the source: the zip entry name
`r'{0}-{1}.txt'.format(sensor.hostname, os.path.basename(each_file.replace('\\', os.sep)))`. -/
def zipEntryName (sensorHostname path : String) : String :=
  sensorHostname ++ "-" ++ posixBasename (winToPosix path) ++ ".txt"

/-- One candidate location's contribution to `files_to_grab` (lines 123-135):
probe the directory, then list the `mplog*` glob, keeping non-directory entries
prefixed by the directory path.  `TimeoutError` re-raises (`.error ()`); any
other exception is swallowed and the location contributes nothing. -/
def locationFiles (dir : String) (probe glob : ListingOutcome) :
    Except Unit (List String) :=
  match probe with
  | .timeout => .error ()
  | .err => .ok []
  | .ok _ =>
    match glob with
    | .timeout => .error ()
    | .err => .ok []
    | .ok entries =>
      .ok ((entries.filter fun e => !e.isDirectory).map
        fun e => dir ++ "\\" ++ e.filename)

/-- `files_to_grab` after probing both locations in order, or a propagated
timeout. -/
def discovery (a : AttemptEnv) : Except Unit (List String) :=
  match locationFiles msAvDir a.loc1probe a.loc1glob with
  | .error _ => .error ()
  | .ok f1 =>
    match locationFiles wdAvDir a.loc2probe a.loc2glob with
    | .error _ => .error ()
    | .ok f2 => .ok (f1 ++ f2)

/-- How the extraction loop over `files_to_grab` ended. -/
inductive ExtractOutcome where
  | done
  | timedOut
  | exc (msg : String)
deriving DecidableEq, Repr

/-- Lines 143-152: fetch each file and write it into the zip; the first
`get_file` failure aborts the loop (a `TimeoutError` re-raises, anything else
escapes to the generic handler). -/
def extractLoop (sensorHostname : String) (fetch : String → FetchOutcome) :
    List String → List Event × ExtractOutcome
  | [] => ([], .done)
  | f :: fs =>
    match fetch f with
    | .ok =>
      let rest := extractLoop sensorHostname fetch fs
      (Event.zipEntry (zipEntryName sensorHostname f) :: rest.1, rest.2)
    | .timeout => ([], .timedOut)
    | .err m => ([], .exc m)

/-- How one iteration of `while timeouts <= MAX_TIMEOUTS` hands control back:
`ret` is a `return` out of the generator from inside the try-block, `timedOut`
lands in the `except TimeoutError` handler, `failed` in the generic
`except Exception` handler, `succeeded` in the `else` clause. -/
inductive AttemptSig where
  | ret
  | timedOut
  | failed (msg : String)
  | succeeded
deriving DecidableEq, Repr

/-- Result of one iteration's try-block: its events, how it exited, and the
value of the `session` variable afterwards (`some sid` once bound). -/
structure AttemptRes where
  evs : List Event
  sig : AttemptSig
  sess : Option Nat

/-- The `try:` body of one loop iteration (lines 72-160 of the source). -/
def runAttempt (normHost : String) (env : Env) (a : AttemptEnv)
    (rc : RDict) (sess : Option Nat) : AttemptRes :=
  let warn : List Event :=
    if a.initiallyOnline then []
    else [.status ("[WARNING] Hostname: " ++ normHost ++
      " is offline. Will attempt for 3 days...")]
  if !a.initiallyOnline && !a.comesOnline then
    -- still offline after DAYS_UNTIL_TIMEOUT: abort
    ⟨warn ++ [.status ("[FATAL ERROR] Hostname: " ++ normHost ++ " is still offline!"),
      .result { rc with was_successful := some false }], .ret, sess⟩
  else
    match a.incident with
    | .notFound => ⟨warn, .ret, sess⟩
    | .unreachable => ⟨warn, .ret, sess⟩
    | .found =>
      let estab := Event.status ("[INFO] Establishing session to CB Sensor #" ++
        toString env.sensorId ++ " (" ++ env.sensorHostname ++ ")")
      match a.sessionOpen with
      | .timeout => ⟨warn ++ [estab], .timedOut, sess⟩
      | .err m => ⟨warn ++ [estab], .failed m, sess⟩
      | .ok sid =>
        let opened := warn ++ [estab, .openSession sid,
          .status ("[SUCCESS] Connected on Session #" ++ toString sid ++
            " to CB Sensor #" ++ toString env.sensorId ++ " (" ++
            env.sensorHostname ++ ")")]
        match discovery a with
        | .error _ => ⟨opened, .timedOut, some sid⟩
        | .ok files =>
          if files.isEmpty then
            -- lines 137-141: yield failure result and return (no session close)
            ⟨opened ++ [.status
              "[FATAL ERROR] Could not find a valid AV log path with logs on Sensor!",
              .result { rc with was_successful := some false }], .ret, some sid⟩
          else
            let zevs := (extractLoop env.sensorHostname a.fetch files).1
            match (extractLoop env.sensorHostname a.fetch files).2 with
            | .timedOut => ⟨opened ++ zevs, .timedOut, some sid⟩
            | .exc m => ⟨opened ++ zevs, .failed m, some sid⟩
            | .done =>
              match a.post with
              | .err m => ⟨opened ++ zevs, .failed m, some sid⟩
              | .ok =>
                ⟨opened ++ zevs ++
                  [.attach (env.sensorHostname ++ "-AV_Logs.zip"),
                   .status
                     "[SUCCESS] Posted ZIP file of AV logs to the incident as an attachment!"],
                 .succeeded, some sid⟩

/-- How an iteration's try-block exits, independent of the results dict, the
normalized hostname and the session variable. -/
def classify (env : Env) (a : AttemptEnv) : AttemptSig :=
  (runAttempt "" env a {} none).sig

/-- The events of `try: session.close() except: pass` — one `close()` call when
the `session` variable is bound, none when it is unbound (`NameError`). -/
def closesFor (sess : Option Nat) : List Event :=
  match sess with
  | some sid => [.closeSession sid]
  | none => []

/-- The retry loop `while timeouts <= MAX_TIMEOUTS` (lines 70-188).  `fuel`
equals `MAX_TIMEOUTS + 1 - timeouts` at each entry, so `fuel = 0` coincides
with the loop condition turning false. -/
def runLoop (env : Env) (normHost : String) :
    Nat → Nat → RDict → Option Nat → List Event
  | 0, _, rc, _ => [.result rc]
  | fuel + 1, timeouts, rc, sess =>
    if timeouts > MAX_TIMEOUTS then [.result rc]
    else
      let A := runAttempt normHost env (env.attempt timeouts) rc sess
      match A.sig with
      | .ret => A.evs
      | .timedOut =>
        let t := timeouts + 1
        let notices : List Event :=
          if t ≤ MAX_TIMEOUTS then
            [.status ("[ERROR] TimeoutError was encountered. Reattempting... (" ++
              toString t ++ "/3)")]
          else
            [.status
              "[FATAL ERROR] TimeoutError was encountered. The maximum number of retries was reached. Aborting!",
             .status "[FAILURE] Fatal error caused exit!"]
        let rc' := if t ≤ MAX_TIMEOUTS then rc else { rc with was_successful := some false }
        A.evs ++ notices ++ closesFor A.sess ++
          [.lookup ("hostname:" ++ normHost), .restartSensor,
           .lookup ("hostname:" ++ normHost)] ++
          runLoop env normHost fuel t rc' A.sess
      | .failed m =>
        A.evs ++
          [.status ("[FATAL ERROR] Encountered: " ++ m),
           .status "[FAILURE] Fatal error caused exit!"] ++
          closesFor A.sess ++
          [.status ("[INFO] Session has been closed to CB Sensor #" ++
             toString env.sensorId ++ "(" ++ env.sensorHostname ++ ")"),
           .result { rc with was_successful := some false }]
      | .succeeded =>
        A.evs ++ closesFor A.sess ++
          [.status ("[INFO] Session has been closed to CB Sensor #" ++
             toString env.sensorId ++ "(" ++ env.sensorHostname ++ ")"),
           .result { rc with was_successful := some true }]

/-- The whole invocation `_cb_retrieve_av_logs_function(incident_id, hostname)`
as an event trace. -/
def run (env : Env) (inputHostname : String) : List Event :=
  let normHost := normalizeHostname inputHostname
  let initLookup := Event.lookup ("hostname:" ++ normHost)
  if env.sensorFound then
    -- line 68: results["hostname"] = str(hostname).upper()
    initLookup :: runLoop env normHost (MAX_TIMEOUTS + 1) 0
      { was_successful := none, hostname := some (pyUpper normHost) } none
  else
    -- lines 61-65: agent not found, fast abort
    [initLookup,
     .status ("[FATAL ERROR] CB could not find hostname: " ++ normHost),
     .result { was_successful := some false, hostname := none }]

/-- Total number of `request_session` calls that succeeded in a trace. -/
def sessionOpenTotal (t : List Event) : Nat :=
  t.countP fun e => match e with | Event.openSession _ => true | _ => false

/-- Total number of `close()` invocations in a trace. -/
def sessionCloseTotal (t : List Event) : Nat :=
  t.countP fun e => match e with | Event.closeSession _ => true | _ => false

/-! ### Concrete environments used as witnesses and counterexamples -/

/-- A healthy baseline attempt whose session open fails with a generic error. -/
def baseAttempt : AttemptEnv :=
  { initiallyOnline := true, comesOnline := true, incident := .found,
    sessionOpen := .err "boom", loc1probe := .err, loc1glob := .err,
    loc2probe := .err, loc2glob := .err, fetch := fun _ => .err "boom",
    post := .ok }

/-- No sensor is registered for the hostname. -/
def envAgentMissing : Env :=
  { sensorFound := false, sensorId := 5, sensorHostname := "HOST1",
    attempt := fun _ => baseAttempt }

/-- Session #77 opens, both locations list successfully but hold no log files. -/
def envNoLogs : Env :=
  { sensorFound := true, sensorId := 5, sensorHostname := "HOST1",
    attempt := fun _ =>
      { baseAttempt with
        sessionOpen := .ok 77
        loc1probe := .ok []
        loc1glob := .ok []
        loc2probe := .ok []
        loc2glob := .ok [] } }

/-- Every attempt's session open raises `TimeoutError`. -/
def envAllTimeouts : Env :=
  { sensorFound := true, sensorId := 5, sensorHostname := "HOST1",
    attempt := fun _ => { baseAttempt with sessionOpen := .timeout } }

/-- The incident lookup fails on the first attempt while the sensor is online. -/
def envQuiet : Env :=
  { sensorFound := true, sensorId := 5, sensorHostname := "HOST1",
    attempt := fun _ => { baseAttempt with incident := .notFound } }

/-- A fully successful first attempt: one `mplog.log` file is found in the
Microsoft Antimalware location (plus a subdirectory entry that is filtered
out), fetched and posted. -/
def envSuccess : Env :=
  { sensorFound := true, sensorId := 5, sensorHostname := "HOST1",
    attempt := fun _ =>
      { baseAttempt with
        sessionOpen := .ok 9
        loc1probe := .ok []
        loc1glob := .ok [DirEntry.mk "mplog.log" false, DirEntry.mk "sub" true]
        fetch := fun _ => .ok
        post := .ok } }

/-- The first attempt times out while listing the first location (the probe
listing of the Microsoft Antimalware directory hangs). -/
def envListTimeout : Env :=
  { sensorFound := true, sensorId := 5, sensorHostname := "HOST1",
    attempt := fun _ =>
      { baseAttempt with
        sessionOpen := .ok 4
        loc1probe := .timeout } }

/-! ### Helper lemmas about the character-wise string model -/

theorem toNat_ofNat_valid (n : Nat) (h : n.isValidChar) : (Char.ofNat n).toNat = n := by
  unfold Char.ofNat
  rw [dif_pos h]
  rfl

theorem toUpper_toUpper (c : Char) : c.toUpper.toUpper = c.toUpper := by
  simp only [Char.toUpper]
  by_cases h : c.toNat ≥ 97 ∧ c.toNat ≤ 122
  · rw [if_pos h, toNat_ofNat_valid _ (Or.inl (by omega)), if_neg (by omega)]
  · rw [if_neg h, if_neg h]

theorem pyUpper_pyUpper (s : String) : pyUpper (pyUpper s) = pyUpper s := by
  simp only [pyUpper, List.map_map]
  congr 1
  exact List.map_congr_left fun a _ => toUpper_toUpper a

theorem pyTake_pyUpper (s : String) (n : Nat) :
    pyTake (pyUpper s) n = pyUpper (pyTake s n) := by
  simp [pyTake, pyUpper, List.map_take]

/-- Upper-then-truncate equals truncate-then-upper in the character-wise model. -/
theorem normalizeHostname_eq (s : String) :
    normalizeHostname s = pyUpper (pyTake s 15) := by
  simp [normalizeHostname, pyTake_pyUpper]

/-- Uppercasing an already-normalized hostname changes nothing. -/
theorem pyUpper_normalizeHostname (s : String) :
    pyUpper (normalizeHostname s) = normalizeHostname s := by
  rw [normalizeHostname_eq, pyUpper_pyUpper]

/-! ### Helper lemmas about the extraction loop -/

theorem extractLoop_events (h : String) (f : String → FetchOutcome) (l : List String) :
    ∀ e ∈ (extractLoop h f l).1, ∃ n, e = Event.zipEntry n := by
  induction l with
  | nil => simp [extractLoop]
  | cons x xs ih =>
    intro e he
    simp only [extractLoop] at he
    cases hf : f x <;> rw [hf] at he <;> simp at he
    rcases he with rfl | he
    · exact ⟨_, rfl⟩
    · exact ih e he

theorem extractLoop_all_ok (h : String) (f : String → FetchOutcome) (l : List String)
    (hok : ∀ x ∈ l, f x = FetchOutcome.ok) :
    extractLoop h f l = (l.map fun x => Event.zipEntry (zipEntryName h x), .done) := by
  induction l with
  | nil => simp [extractLoop]
  | cons x xs ih =>
    have hx : f x = FetchOutcome.ok := hok x (by simp)
    simp only [extractLoop, hx, ih fun y hy => hok y (by simp [hy]), List.map_cons]

/-! ### Structure of one attempt's event list -/

theorem runAttempt_sig (nh : String) (env : Env) (a : AttemptEnv)
    (rc : RDict) (sess : Option Nat) :
    (runAttempt nh env a rc sess).sig = classify env a := by
  unfold classify runAttempt
  repeat' split <;> try rfl

set_option maxHeartbeats 2000000 in
theorem runAttempt_events (nh : String) (env : Env) (a : AttemptEnv)
    (rc : RDict) (sess : Option Nat) :
    ∀ e ∈ (runAttempt nh env a rc sess).evs,
      (∃ m, e = Event.status m) ∨ (∃ i, e = Event.openSession i) ∨
      (∃ n, e = Event.zipEntry n) ∨ (∃ n, e = Event.attach n) ∨
      e = Event.result { rc with was_successful := some false } := by
  intro e he
  unfold runAttempt at he
  repeat' split at he
  all_goals simp only [List.mem_append, List.mem_cons, List.not_mem_nil, or_false,
    false_or, List.mem_singleton, or_assoc] at he
  all_goals try (rcases he with rfl | he)
  all_goals try (rcases he with rfl | he)
  all_goals try (rcases he with rfl | he)
  all_goals try (rcases he with rfl | he)
  all_goals try (rcases he with rfl | he)
  all_goals try (rcases he with rfl | he)
  all_goals try (rcases he with he | he)
  all_goals try (rcases he with rfl | he)
  all_goals try (rcases he with rfl | he)
  all_goals try (rcases extractLoop_events env.sensorHostname a.fetch _ e he with ⟨n, rfl⟩)
  all_goals simp

/-! ### Simp lemmas for the trace extractors -/

@[simp] theorem resultsOf_nil : resultsOf [] = [] := rfl

@[simp] theorem resultsOf_append (l1 l2 : List Event) :
    resultsOf (l1 ++ l2) = resultsOf l1 ++ resultsOf l2 :=
  List.filterMap_append l1 l2 _

@[simp] theorem resultsOf_cons (e : Event) (t : List Event) :
    resultsOf (e :: t) =
      (match e with | Event.result r => [r] | _ => []) ++ resultsOf t := by
  cases e <;> simp [resultsOf, List.filterMap_cons]

@[simp] theorem restartCount_nil : restartCount [] = 0 := rfl

@[simp] theorem restartCount_append (l1 l2 : List Event) :
    restartCount (l1 ++ l2) = restartCount l1 + restartCount l2 :=
  List.countP_append _ l1 l2

@[simp] theorem restartCount_cons (e : Event) (t : List Event) :
    restartCount (e :: t) =
      (if e = Event.restartSensor then 1 else 0) + restartCount t := by
  by_cases h : e = Event.restartSensor <;>
    simp [restartCount, List.countP_cons, h, Nat.add_comm]

theorem runAttempt_lookupsOf (nh : String) (env : Env) (a : AttemptEnv)
    (rc : RDict) (sess : Option Nat) :
    lookupsOf (runAttempt nh env a rc sess).evs = [] := by
  rw [lookupsOf, List.filterMap_eq_nil_iff]
  intro e he
  rcases runAttempt_events nh env a rc sess e he with
    ⟨m, rfl⟩ | ⟨i, rfl⟩ | ⟨n, rfl⟩ | ⟨n, rfl⟩ | rfl <;> rfl

theorem runAttempt_restartCount (nh : String) (env : Env) (a : AttemptEnv)
    (rc : RDict) (sess : Option Nat) :
    restartCount (runAttempt nh env a rc sess).evs = 0 := by
  rw [restartCount, List.countP_eq_zero]
  intro e he
  rcases runAttempt_events nh env a rc sess e he with
    ⟨m, rfl⟩ | ⟨i, rfl⟩ | ⟨n, rfl⟩ | ⟨n, rfl⟩ | rfl <;> simp

theorem runAttempt_results_mem (nh : String) (env : Env) (a : AttemptEnv)
    (rc : RDict) (sess : Option Nat) :
    ∀ r ∈ resultsOf (runAttempt nh env a rc sess).evs,
      r = { rc with was_successful := some false } := by
  intro r hr
  rw [resultsOf, List.mem_filterMap] at hr
  obtain ⟨e, he, hfe⟩ := hr
  rcases runAttempt_events nh env a rc sess e he with
    ⟨m, rfl⟩ | ⟨i, rfl⟩ | ⟨n, rfl⟩ | ⟨n, rfl⟩ | rfl <;>
    simp_all

theorem resultsOf_extractLoop (h : String) (f : String → FetchOutcome)
    (l : List String) : resultsOf (extractLoop h f l).1 = [] := by
  rw [resultsOf, List.filterMap_eq_nil_iff]
  intro e he
  rcases extractLoop_events h f l e he with ⟨n, rfl⟩
  rfl

set_option maxHeartbeats 2000000 in
theorem runAttempt_resultsOf (nh : String) (env : Env) (a : AttemptEnv)
    (rc : RDict) (sess : Option Nat) :
    resultsOf (runAttempt nh env a rc sess).evs = [] ∨
    ((runAttempt nh env a rc sess).sig = AttemptSig.ret ∧
      resultsOf (runAttempt nh env a rc sess).evs =
        [{ rc with was_successful := some false }]) := by
  unfold runAttempt
  repeat' split
  all_goals simp [resultsOf_extractLoop]

@[simp] theorem resultsOf_closesFor (sess : Option Nat) :
    resultsOf (closesFor sess) = [] := by
  cases sess <;> simp [closesFor]

@[simp] theorem lookupsOf_nil : lookupsOf [] = [] := rfl

@[simp] theorem lookupsOf_append (l1 l2 : List Event) :
    lookupsOf (l1 ++ l2) = lookupsOf l1 ++ lookupsOf l2 :=
  List.filterMap_append l1 l2 _

@[simp] theorem lookupsOf_cons (e : Event) (t : List Event) :
    lookupsOf (e :: t) =
      (match e with | Event.lookup q => [q] | _ => []) ++ lookupsOf t := by
  cases e <;> simp [lookupsOf, List.filterMap_cons]

@[simp] theorem lookupsOf_closesFor (sess : Option Nat) :
    lookupsOf (closesFor sess) = [] := by
  cases sess <;> simp [closesFor]

@[simp] theorem statusesOf_nil : statusesOf [] = [] := rfl

@[simp] theorem statusesOf_append (l1 l2 : List Event) :
    statusesOf (l1 ++ l2) = statusesOf l1 ++ statusesOf l2 :=
  List.filterMap_append l1 l2 _

@[simp] theorem statusesOf_cons (e : Event) (t : List Event) :
    statusesOf (e :: t) =
      (match e with | Event.status m => [m] | _ => []) ++ statusesOf t := by
  cases e <;> simp [statusesOf, List.filterMap_cons]

@[simp] theorem attachmentsOf_nil : attachmentsOf [] = [] := rfl

@[simp] theorem attachmentsOf_append (l1 l2 : List Event) :
    attachmentsOf (l1 ++ l2) = attachmentsOf l1 ++ attachmentsOf l2 :=
  List.filterMap_append l1 l2 _

@[simp] theorem attachmentsOf_cons (e : Event) (t : List Event) :
    attachmentsOf (e :: t) =
      (match e with | Event.attach n => [n] | _ => []) ++ attachmentsOf t := by
  cases e <;> simp [attachmentsOf, List.filterMap_cons]

@[simp] theorem attachmentsOf_closesFor (sess : Option Nat) :
    attachmentsOf (closesFor sess) = [] := by
  cases sess <;> simp [closesFor]

@[simp] theorem zipEntriesOf_nil : zipEntriesOf [] = [] := rfl

@[simp] theorem zipEntriesOf_append (l1 l2 : List Event) :
    zipEntriesOf (l1 ++ l2) = zipEntriesOf l1 ++ zipEntriesOf l2 :=
  List.filterMap_append l1 l2 _

@[simp] theorem zipEntriesOf_cons (e : Event) (t : List Event) :
    zipEntriesOf (e :: t) =
      (match e with | Event.zipEntry n => [n] | _ => []) ++ zipEntriesOf t := by
  cases e <;> simp [zipEntriesOf, List.filterMap_cons]

@[simp] theorem zipEntriesOf_closesFor (sess : Option Nat) :
    zipEntriesOf (closesFor sess) = [] := by
  cases sess <;> simp [closesFor]

@[simp] theorem restartCount_closesFor (sess : Option Nat) :
    restartCount (closesFor sess) = 0 := by
  cases sess <;> simp [closesFor]

/-- Zip-entry events written for a fully fetched file list, as name lists. -/
theorem zipEntriesOf_map (h : String) (l : List String) :
    zipEntriesOf (l.map fun x => Event.zipEntry (zipEntryName h x)) =
      l.map (zipEntryName h) := by
  induction l with
  | nil => simp
  | cons x xs ih => simp [ih]

theorem attachmentsOf_map_zipEntry (h : String) (l : List String) :
    attachmentsOf (l.map fun x => Event.zipEntry (zipEntryName h x)) = [] := by
  induction l with
  | nil => simp
  | cons x xs ih => simp [ih]

theorem resultsOf_map_zipEntry (h : String) (l : List String) :
    resultsOf (l.map fun x => Event.zipEntry (zipEntryName h x)) = [] := by
  induction l with
  | nil => simp
  | cons x xs ih => simp [ih]

/-- An attempt that does not `return` out of the generator emits no
`FunctionResult`. -/
theorem runAttempt_resultsOf_ne_ret (nh : String) (env : Env) (a : AttemptEnv)
    (rc : RDict) (sess : Option Nat) (h : classify env a ≠ AttemptSig.ret) :
    resultsOf (runAttempt nh env a rc sess).evs = [] := by
  rcases runAttempt_resultsOf nh env a rc sess with h1 | ⟨h2, _⟩
  · exact h1
  · rw [runAttempt_sig] at h2
    exact absurd h2 h

/-! ### Loop-level invariants -/

/-- The `hostname` entry of the results dict is never modified by the retry
loop: every emitted `FunctionResult` carries the value it held at loop entry. -/
theorem runLoop_results_hostname (env : Env) (nh : String) (fuel : Nat) :
    ∀ (t : Nat) (rc : RDict) (sess : Option Nat) (hst : String),
      rc.hostname = some hst →
      ∀ r ∈ resultsOf (runLoop env nh fuel t rc sess), r.hostname = some hst := by
  induction fuel with
  | zero =>
    intro t rc sess hst h r hr
    simp only [runLoop, resultsOf_cons, resultsOf_nil] at hr
    simp at hr
    subst hr
    exact h
  | succ n ih =>
    intro t rc sess hst h r hr
    simp only [runLoop] at hr
    split at hr
    · simp at hr; subst hr; exact h
    · split at hr
      -- ret
      · have := runAttempt_results_mem nh env (env.attempt t) rc sess r hr
        rw [this]; exact h
      -- timedOut
      · simp only [apply_ite resultsOf, resultsOf_append, resultsOf_cons, resultsOf_nil,
          resultsOf_closesFor, ite_self, List.append_nil, List.nil_append,
          List.mem_append] at hr
        rcases hr with hr | hr
        · have := runAttempt_results_mem nh env (env.attempt t) rc sess r hr
          rw [this]; exact h
        · refine ih (t + 1) _ _ hst ?_ r hr
          split
          · exact h
          · simpa using h
      -- failed
      · simp only [resultsOf_append, resultsOf_cons, resultsOf_nil, resultsOf_closesFor,
          List.append_nil, List.nil_append, List.mem_append] at hr
        simp at hr
        rcases hr with hr | hr
        · have := runAttempt_results_mem nh env (env.attempt t) rc sess r hr
          rw [this]; exact h
        · subst hr; simpa using h
      -- succeeded
      · simp only [resultsOf_append, resultsOf_cons, resultsOf_nil, resultsOf_closesFor,
          List.append_nil, List.nil_append, List.mem_append] at hr
        simp at hr
        rcases hr with hr | hr
        · have := runAttempt_results_mem nh env (env.attempt t) rc sess r hr
          rw [this]; exact h
        · subst hr; simpa using h

/-- Every sensor query issued by the retry loop uses the normalized hostname. -/
theorem runLoop_lookups (env : Env) (nh : String) (fuel : Nat) :
    ∀ (t : Nat) (rc : RDict) (sess : Option Nat),
      ∀ q ∈ lookupsOf (runLoop env nh fuel t rc sess), q = "hostname:" ++ nh := by
  induction fuel with
  | zero =>
    intro t rc sess q hq
    simp [runLoop] at hq
  | succ n ih =>
    intro t rc sess q hq
    simp only [runLoop] at hq
    split at hq
    · simp at hq
    · split at hq
      -- ret
      · rw [runAttempt_lookupsOf] at hq
        simp at hq
      -- timedOut
      · simp only [apply_ite lookupsOf, lookupsOf_append, lookupsOf_cons, lookupsOf_nil,
          lookupsOf_closesFor, runAttempt_lookupsOf, ite_self, List.append_nil,
          List.nil_append, List.mem_append, List.mem_cons, List.not_mem_nil,
          or_false, false_or, List.mem_singleton] at hq
        rcases hq with (hq | hq) | hq
        · exact hq
        · exact hq
        · exact ih (t + 1) _ _ q hq
      -- failed
      · simp only [lookupsOf_append, lookupsOf_cons, lookupsOf_nil, lookupsOf_closesFor,
          runAttempt_lookupsOf, List.append_nil, List.nil_append] at hq
        simp at hq
      -- succeeded
      · simp only [lookupsOf_append, lookupsOf_cons, lookupsOf_nil, lookupsOf_closesFor,
          runAttempt_lookupsOf, List.append_nil, List.nil_append] at hq
        simp at hq

/-- Unrolling one iteration of the retry loop whose attempt lands in the
`except TimeoutError` handler: retry (or cap-exceeded) notices, a defensive
`close()`, a sensor refresh, an unconditional `restart_sensor()`, another
refresh, and the next iteration. -/
theorem runLoop_timeout_step (env : Env) (nh : String) (fuel t : Nat) (rc : RDict)
    (sess : Option Nat) (hfuel : fuel ≠ 0) (hle : t ≤ MAX_TIMEOUTS)
    (hc : classify env (env.attempt t) = AttemptSig.timedOut) :
    runLoop env nh fuel t rc sess =
      (runAttempt nh env (env.attempt t) rc sess).evs ++
      (if t + 1 ≤ MAX_TIMEOUTS then
        [Event.status ("[ERROR] TimeoutError was encountered. Reattempting... (" ++
          toString (t + 1) ++ "/3)")]
      else
        [Event.status
          "[FATAL ERROR] TimeoutError was encountered. The maximum number of retries was reached. Aborting!",
         Event.status "[FAILURE] Fatal error caused exit!"]) ++
      closesFor (runAttempt nh env (env.attempt t) rc sess).sess ++
      [Event.lookup ("hostname:" ++ nh), Event.restartSensor,
       Event.lookup ("hostname:" ++ nh)] ++
      runLoop env nh (fuel - 1) (t + 1)
        (if t + 1 ≤ MAX_TIMEOUTS then rc else { rc with was_successful := some false })
        (runAttempt nh env (env.attempt t) rc sess).sess := by
  obtain ⟨n, rfl⟩ : ∃ n, fuel = n + 1 := ⟨fuel - 1, by omega⟩
  simp only [runLoop, Nat.add_sub_cancel]
  rw [if_neg (by omega)]
  rw [runAttempt_sig, hc]

/-- Unrolling one iteration of the retry loop whose attempt `return`s out of
the generator: the trace is exactly the attempt's events. -/
theorem runLoop_ret_step (env : Env) (nh : String) (fuel t : Nat) (rc : RDict)
    (sess : Option Nat) (hfuel : fuel ≠ 0) (hle : t ≤ MAX_TIMEOUTS)
    (hc : classify env (env.attempt t) = AttemptSig.ret) :
    runLoop env nh fuel t rc sess = (runAttempt nh env (env.attempt t) rc sess).evs := by
  obtain ⟨n, rfl⟩ : ∃ n, fuel = n + 1 := ⟨fuel - 1, by omega⟩
  simp only [runLoop]
  rw [if_neg (by omega)]
  rw [runAttempt_sig, hc]

/-- Unrolling one iteration of the retry loop whose attempt reaches the `else`
clause: the session is closed, the close notice is emitted, the loop breaks and
the successful result is yielded. -/
theorem runLoop_success_step (env : Env) (nh : String) (fuel t : Nat) (rc : RDict)
    (sess : Option Nat) (hfuel : fuel ≠ 0) (hle : t ≤ MAX_TIMEOUTS)
    (hc : classify env (env.attempt t) = AttemptSig.succeeded) :
    runLoop env nh fuel t rc sess =
      (runAttempt nh env (env.attempt t) rc sess).evs ++
      closesFor (runAttempt nh env (env.attempt t) rc sess).sess ++
      [Event.status ("[INFO] Session has been closed to CB Sensor #" ++
         toString env.sensorId ++ "(" ++ env.sensorHostname ++ ")"),
       Event.result { rc with was_successful := some true }] := by
  obtain ⟨n, rfl⟩ : ∃ n, fuel = n + 1 := ⟨fuel - 1, by omega⟩
  simp only [runLoop]
  rw [if_neg (by omega)]
  rw [runAttempt_sig, hc]

/-! ### Claim theorems -/

/-- C1: the claim states that whenever a RemoteSession is opened, `close()` is
invoked exactly once on every exit path, including `NoLogsFound`.  The code
violates this: on the `NoLogsFound` path the generator returns directly after
yielding the failure result, so the opened session is never closed.  This
theorem evaluates the model at the failing input: session #77 is opened once,
both locations list successfully but contain no files, and the trace contains
zero `close()` invocations. -/
theorem c1_noLogsFound_leaks_session :
    openCount (run envNoLogs "host1") 77 = 1 ∧
    closeCount (run envNoLogs "host1") 77 = 0 ∧
    sessionCloseTotal (run envNoLogs "host1") = 0 ∧
    resultsOf (run envNoLogs "host1") =
      [{ was_successful := some false, hostname := some "HOST1" }] := by
  decide

/-- C2 counterexample: with four consecutive timeout-classified attempts the
invocation does terminate with `was_successful = false`, but the agent restart
command is issued 4 times, not the claimed 3: the `except TimeoutError` handler
calls `restart_sensor()` unconditionally, including after the final,
cap-exceeding timeout. -/
theorem c2_counterexample :
    classify envAllTimeouts (envAllTimeouts.attempt 0) = AttemptSig.timedOut ∧
    classify envAllTimeouts (envAllTimeouts.attempt 1) = AttemptSig.timedOut ∧
    classify envAllTimeouts (envAllTimeouts.attempt 2) = AttemptSig.timedOut ∧
    classify envAllTimeouts (envAllTimeouts.attempt 3) = AttemptSig.timedOut ∧
    resultsOf (run envAllTimeouts "host1") =
      [{ was_successful := some false, hostname := some "HOST1" }] ∧
    restartCount (run envAllTimeouts "host1") = 4 ∧
    restartCount (run envAllTimeouts "host1") ≠ 3 := by
  decide

/-- C2 (amended): if four consecutive attempts each fail with a
timeout-classified error, the invocation terminates with
`was_successful = false` and the agent restart command has been issued exactly
4 times — once per timeout, including the final, cap-exceeding one. -/
theorem c2_amended (env : Env) (s : String)
    (hf : env.sensorFound = true)
    (h0 : classify env (env.attempt 0) = AttemptSig.timedOut)
    (h1 : classify env (env.attempt 1) = AttemptSig.timedOut)
    (h2 : classify env (env.attempt 2) = AttemptSig.timedOut)
    (h3 : classify env (env.attempt 3) = AttemptSig.timedOut) :
    resultsOf (run env s) =
      [{ was_successful := some false, hostname := some (normalizeHostname s) }] ∧
    restartCount (run env s) = 4 := by
  have hne : ∀ k, classify env (env.attempt k) = AttemptSig.timedOut →
      classify env (env.attempt k) ≠ AttemptSig.ret := by
    intro k hk
    rw [hk]
    simp
  set nh := normalizeHostname s with hnh
  set rc0 : RDict := { was_successful := none, hostname := some (pyUpper nh) } with hrc0
  have hrun : run env s = Event.lookup ("hostname:" ++ nh) ::
      runLoop env nh 4 0 rc0 none := by
    simp [run, hf, MAX_TIMEOUTS, hrc0]
  have e1 := runLoop_timeout_step env nh 4 0 rc0 none (by decide) (by decide) h0
  simp only [show (4:Nat) - 1 = 3 from rfl,
    if_pos (show (0:Nat) + 1 ≤ MAX_TIMEOUTS by decide)] at e1
  set s1 := (runAttempt nh env (env.attempt 0) rc0 none).sess with hs1
  have e2 := runLoop_timeout_step env nh 3 1 rc0 s1 (by decide) (by decide) h1
  simp only [show (3:Nat) - 1 = 2 from rfl,
    if_pos (show (1:Nat) + 1 ≤ MAX_TIMEOUTS by decide)] at e2
  set s2 := (runAttempt nh env (env.attempt 1) rc0 s1).sess with hs2
  have e3 := runLoop_timeout_step env nh 2 2 rc0 s2 (by decide) (by decide) h2
  simp only [show (2:Nat) - 1 = 1 from rfl,
    if_pos (show (2:Nat) + 1 ≤ MAX_TIMEOUTS by decide)] at e3
  set s3 := (runAttempt nh env (env.attempt 2) rc0 s2).sess with hs3
  have e4 := runLoop_timeout_step env nh 1 3 rc0 s3 (by decide) (by decide) h3
  simp only [show (1:Nat) - 1 = 0 from rfl,
    if_neg (show ¬ ((3:Nat) + 1 ≤ MAX_TIMEOUTS) by decide)] at e4
  set s4 := (runAttempt nh env (env.attempt 3) rc0 s3).sess with hs4
  have e5 : runLoop env nh 0 4 { rc0 with was_successful := some false } s4 =
      [Event.result { rc0 with was_successful := some false }] := by
    simp [runLoop]
  rw [hrun, e1, e2, e3, e4, e5]
  have r0 := runAttempt_resultsOf_ne_ret nh env (env.attempt 0) rc0 none (hne 0 h0)
  have r1 := runAttempt_resultsOf_ne_ret nh env (env.attempt 1) rc0 s1 (hne 1 h1)
  have r2 := runAttempt_resultsOf_ne_ret nh env (env.attempt 2) rc0 s2 (hne 2 h2)
  have r3 := runAttempt_resultsOf_ne_ret nh env (env.attempt 3) rc0 s3 (hne 3 h3)
  have q0 := runAttempt_restartCount nh env (env.attempt 0) rc0 none
  have q1 := runAttempt_restartCount nh env (env.attempt 1) rc0 s1
  have q2 := runAttempt_restartCount nh env (env.attempt 2) rc0 s2
  have q3 := runAttempt_restartCount nh env (env.attempt 3) rc0 s3
  constructor
  · simp only [resultsOf_cons, resultsOf_append, resultsOf_closesFor, resultsOf_nil,
      r0, r1, r2, r3, List.append_nil, List.nil_append]
    simp [hnh, pyUpper_normalizeHostname]
  · simp only [restartCount_cons, restartCount_append, restartCount_closesFor,
      restartCount_nil, q0, q1, q2, q3]
    simp

theorem c2_amended_witness :
    envAllTimeouts.sensorFound = true ∧
    classify envAllTimeouts (envAllTimeouts.attempt 0) = AttemptSig.timedOut ∧
    classify envAllTimeouts (envAllTimeouts.attempt 1) = AttemptSig.timedOut ∧
    classify envAllTimeouts (envAllTimeouts.attempt 2) = AttemptSig.timedOut ∧
    classify envAllTimeouts (envAllTimeouts.attempt 3) = AttemptSig.timedOut ∧
    (resultsOf (run envAllTimeouts "host1") =
      [{ was_successful := some false, hostname := some (normalizeHostname "host1") }] ∧
    restartCount (run envAllTimeouts "host1") = 4) :=
  ⟨rfl, by decide, by decide, by decide, by decide,
    c2_amended envAllTimeouts "host1" rfl (by decide) (by decide) (by decide)
      (by decide)⟩

/-- C3: for every input hostname longer than 15 characters, the normalized
hostname — used in every sensor lookup and, when present, in the emitted
InvocationResult — is exactly the first 15 characters of the input,
uppercased.  (In the character-wise model, upper-then-truncate equals
truncate-then-upper.) -/
theorem c3_hostname_normalization (env : Env) (s : String) (hlen : 15 < pyLen s) :
    normalizeHostname s = pyUpper (pyTake s 15) ∧
    ((lookupsOf (run env s)).all fun q =>
      q == "hostname:" ++ pyUpper (pyTake s 15)) = true ∧
    ((resultsOf (run env s)).all fun r =>
      r.hostname == none || r.hostname == some (pyUpper (pyTake s 15))) = true := by
  refine ⟨normalizeHostname_eq s, ?_, ?_⟩
  · rw [List.all_eq_true]
    intro q hq
    rw [beq_iff_eq, ← normalizeHostname_eq]
    cases hf : env.sensorFound
    · simp [run, hf] at hq
      exact hq
    · simp only [run, hf] at hq
      simp only [if_true] at hq
      simp only [lookupsOf_cons, List.mem_append, List.mem_cons, List.not_mem_nil,
        or_false, List.nil_append, List.mem_singleton] at hq
      rcases hq with rfl | hq
      · rfl
      · exact runLoop_lookups env (normalizeHostname s) (MAX_TIMEOUTS + 1) 0 _ none q hq
  · rw [List.all_eq_true]
    intro r hr
    cases hf : env.sensorFound
    · simp [run, hf] at hr
      rw [hr]
      simp
    · simp only [run, hf, if_true] at hr
      simp only [resultsOf_cons, List.nil_append] at hr
      have := runLoop_results_hostname env (normalizeHostname s) (MAX_TIMEOUTS + 1) 0
        { was_successful := none, hostname := some (pyUpper (normalizeHostname s)) } none
        (pyUpper (normalizeHostname s)) rfl r hr
      rw [this, pyUpper_normalizeHostname, normalizeHostname_eq]
      simp

theorem c3_hostname_normalization_witness :
    15 < pyLen "chicago-sensor-0442" ∧
    (normalizeHostname "chicago-sensor-0442" =
      pyUpper (pyTake "chicago-sensor-0442" 15) ∧
    ((lookupsOf (run envSuccess "chicago-sensor-0442")).all fun q =>
      q == "hostname:" ++ pyUpper (pyTake "chicago-sensor-0442" 15)) = true ∧
    ((resultsOf (run envSuccess "chicago-sensor-0442")).all fun r =>
      r.hostname == none ||
        r.hostname == some (pyUpper (pyTake "chicago-sensor-0442" 15))) = true) :=
  ⟨by decide, c3_hostname_normalization envSuccess "chicago-sensor-0442" (by decide)⟩

/-- C4: if the agent-directory lookup returns no sensor for the hostname, the
invocation terminates immediately with `was_successful = false`; no retry
attempt is made, no session is opened and no restart command is issued. -/
theorem c4_agent_not_found (env : Env) (s : String)
    (h : env.sensorFound = false) :
    run env s =
      [Event.lookup ("hostname:" ++ normalizeHostname s),
       Event.status ("[FATAL ERROR] CB could not find hostname: " ++
         normalizeHostname s),
       Event.result { was_successful := some false, hostname := none }] ∧
    resultsOf (run env s) = [{ was_successful := some false, hostname := none }] ∧
    sessionOpenTotal (run env s) = 0 ∧
    restartCount (run env s) = 0 := by
  have h1 : run env s =
      [Event.lookup ("hostname:" ++ normalizeHostname s),
       Event.status ("[FATAL ERROR] CB could not find hostname: " ++
         normalizeHostname s),
       Event.result { was_successful := some false, hostname := none }] := by
    simp [run, h]
  refine ⟨h1, ?_, ?_, ?_⟩ <;> rw [h1] <;>
    simp [sessionOpenTotal, List.countP_cons]

theorem c4_agent_not_found_witness :
    envAgentMissing.sensorFound = false ∧
    (run envAgentMissing "host1" =
      [Event.lookup ("hostname:" ++ normalizeHostname "host1"),
       Event.status ("[FATAL ERROR] CB could not find hostname: " ++
         normalizeHostname "host1"),
       Event.result { was_successful := some false, hostname := none }] ∧
    resultsOf (run envAgentMissing "host1") =
      [{ was_successful := some false, hostname := none }] ∧
    sessionOpenTotal (run envAgentMissing "host1") = 0 ∧
    restartCount (run envAgentMissing "host1") = 0) :=
  ⟨rfl, c4_agent_not_found envAgentMissing "host1" rfl⟩

/-- C5: if the incident lookup fails (record not found or store unreachable)
the invocation exits quietly: the exit path emits no Status Channel notices and
no InvocationResult.  In the canonical scenario — sensor online, failure on the
first attempt — the whole trace is the single sensor lookup: zero status
notices and zero results are emitted. -/
theorem c5_quiet_exit (env : Env) (s : String)
    (hf : env.sensorFound = true)
    (hon : (env.attempt 0).initiallyOnline = true)
    (hinc : (env.attempt 0).incident ≠ IncidentOutcome.found) :
    run env s = [Event.lookup ("hostname:" ++ normalizeHostname s)] ∧
    statusesOf (run env s) = [] ∧
    resultsOf (run env s) = [] := by
  have h1 : run env s = [Event.lookup ("hostname:" ++ normalizeHostname s)] := by
    cases hI : (env.attempt 0).incident with
    | found => exact absurd hI hinc
    | notFound => simp [run, hf, runLoop, runAttempt, hon, hI, MAX_TIMEOUTS]
    | unreachable => simp [run, hf, runLoop, runAttempt, hon, hI, MAX_TIMEOUTS]
  exact ⟨h1, by rw [h1]; rfl, by rw [h1]; rfl⟩

theorem c5_quiet_exit_witness :
    envQuiet.sensorFound = true ∧
    (envQuiet.attempt 0).initiallyOnline = true ∧
    (envQuiet.attempt 0).incident ≠ IncidentOutcome.found ∧
    (run envQuiet "host1" = [Event.lookup ("hostname:" ++ normalizeHostname "host1")] ∧
    statusesOf (run envQuiet "host1") = [] ∧
    resultsOf (run envQuiet "host1") = []) :=
  ⟨rfl, rfl, by decide,
    c5_quiet_exit envQuiet "host1" rfl rfl (by decide)⟩

/-- C6: if probing both candidate log locations yields zero candidate files,
the invocation terminates with `was_successful = false`, no attachment is
posted and no timeout-retry is consumed (no restart, no further attempt). -/
theorem c6_no_logs_found (env : Env) (s : String) (sid : Nat)
    (hf : env.sensorFound = true)
    (hon : (env.attempt 0).initiallyOnline = true)
    (hinc : (env.attempt 0).incident = IncidentOutcome.found)
    (hopen : (env.attempt 0).sessionOpen = OpenOutcome.ok sid)
    (hdisc : discovery (env.attempt 0) = Except.ok []) :
    resultsOf (run env s) =
      [{ was_successful := some false, hostname := some (normalizeHostname s) }] ∧
    attachmentsOf (run env s) = [] ∧
    restartCount (run env s) = 0 := by
  set nh := normalizeHostname s with hnh
  set rc0 : RDict := { was_successful := none, hostname := some (pyUpper nh) } with hrc0
  have hA : runAttempt nh env (env.attempt 0) rc0 none =
      ⟨[Event.status ("[INFO] Establishing session to CB Sensor #" ++
          toString env.sensorId ++ " (" ++ env.sensorHostname ++ ")"),
        Event.openSession sid,
        Event.status ("[SUCCESS] Connected on Session #" ++ toString sid ++
          " to CB Sensor #" ++ toString env.sensorId ++ " (" ++
          env.sensorHostname ++ ")"),
        Event.status "[FATAL ERROR] Could not find a valid AV log path with logs on Sensor!",
        Event.result { rc0 with was_successful := some false }],
       AttemptSig.ret, some sid⟩ := by
    simp [runAttempt, hon, hinc, hopen, hdisc]
  have hcl : classify env (env.attempt 0) = AttemptSig.ret := by
    rw [← runAttempt_sig nh env (env.attempt 0) rc0 none, hA]
  have hrun : run env s = Event.lookup ("hostname:" ++ nh) ::
      runLoop env nh 4 0 rc0 none := by
    simp [run, hf, MAX_TIMEOUTS, hrc0]
  rw [hrun, runLoop_ret_step env nh 4 0 rc0 none (by decide) (by decide) hcl, hA]
  refine ⟨?_, ?_, ?_⟩ <;> simp [hnh, hrc0, pyUpper_normalizeHostname]

theorem c6_no_logs_found_witness :
    envNoLogs.sensorFound = true ∧
    (envNoLogs.attempt 0).sessionOpen = OpenOutcome.ok 77 ∧
    discovery (envNoLogs.attempt 0) = Except.ok [] ∧
    (resultsOf (run envNoLogs "host1") =
      [{ was_successful := some false, hostname := some (normalizeHostname "host1") }] ∧
    attachmentsOf (run envNoLogs "host1") = [] ∧
    restartCount (run envNoLogs "host1") = 0) :=
  ⟨rfl, rfl, rfl,
    c6_no_logs_found envNoLogs "host1" 77 rfl rfl rfl rfl rfl⟩

/-- C7: if extraction and upload succeed, the emitted InvocationResult is
`{was_successful: true, hostname: <normalized hostname>}`, and exactly one
attachment named `<hostname>-AV_Logs.zip` is posted — where the hostname used
in the attachment name is the sensor's reported hostname, assumed equal to the
normalized input hostname (the platform stores hostnames case-normalized and
truncated to 15 characters). -/
theorem c7_success (env : Env) (s : String) (sid : Nat) (files : List String)
    (hf : env.sensorFound = true)
    (hsh : env.sensorHostname = normalizeHostname s)
    (hon : (env.attempt 0).initiallyOnline = true)
    (hinc : (env.attempt 0).incident = IncidentOutcome.found)
    (hopen : (env.attempt 0).sessionOpen = OpenOutcome.ok sid)
    (hdisc : discovery (env.attempt 0) = Except.ok files)
    (hne : files ≠ [])
    (hfetch : ∀ f ∈ files, (env.attempt 0).fetch f = FetchOutcome.ok)
    (hpost : (env.attempt 0).post = PostOutcome.ok) :
    resultsOf (run env s) =
      [{ was_successful := some true, hostname := some (normalizeHostname s) }] ∧
    attachmentsOf (run env s) = [normalizeHostname s ++ "-AV_Logs.zip"] := by
  set nh := normalizeHostname s with hnh
  set rc0 : RDict := { was_successful := none, hostname := some (pyUpper nh) } with hrc0
  have hie : files.isEmpty = false := by
    cases files with
    | nil => exact absurd rfl hne
    | cons a l => rfl
  have hext := extractLoop_all_ok env.sensorHostname (env.attempt 0).fetch files hfetch
  have hA : runAttempt nh env (env.attempt 0) rc0 none =
      ⟨[Event.status ("[INFO] Establishing session to CB Sensor #" ++
          toString env.sensorId ++ " (" ++ env.sensorHostname ++ ")"),
        Event.openSession sid,
        Event.status ("[SUCCESS] Connected on Session #" ++ toString sid ++
          " to CB Sensor #" ++ toString env.sensorId ++ " (" ++
          env.sensorHostname ++ ")")] ++
       (files.map fun x => Event.zipEntry (zipEntryName env.sensorHostname x)) ++
       [Event.attach (env.sensorHostname ++ "-AV_Logs.zip"),
        Event.status "[SUCCESS] Posted ZIP file of AV logs to the incident as an attachment!"],
       AttemptSig.succeeded, some sid⟩ := by
    simp [runAttempt, hon, hinc, hopen, hdisc, hie, hext, hpost]
  have hcl : classify env (env.attempt 0) = AttemptSig.succeeded := by
    rw [← runAttempt_sig nh env (env.attempt 0) rc0 none, hA]
  have hrun : run env s = Event.lookup ("hostname:" ++ nh) ::
      runLoop env nh 4 0 rc0 none := by
    simp [run, hf, MAX_TIMEOUTS, hrc0]
  rw [hrun, runLoop_success_step env nh 4 0 rc0 none (by decide) (by decide) hcl, hA]
  constructor
  · simp [closesFor, resultsOf_map_zipEntry, hnh, hrc0, pyUpper_normalizeHostname]
  · simp [closesFor, attachmentsOf_map_zipEntry, hsh, hnh]

theorem c7_success_witness :
    envSuccess.sensorFound = true ∧
    envSuccess.sensorHostname = normalizeHostname "host1" ∧
    discovery (envSuccess.attempt 0) =
      Except.ok [msAvDir ++ "\\mplog.log"] ∧
    (envSuccess.attempt 0).post = PostOutcome.ok ∧
    (resultsOf (run envSuccess "host1") =
      [{ was_successful := some true, hostname := some (normalizeHostname "host1") }] ∧
    attachmentsOf (run envSuccess "host1") =
      [normalizeHostname "host1" ++ "-AV_Logs.zip"]) :=
  ⟨rfl, by decide, rfl, rfl,
    c7_success envSuccess "host1" 9 [msAvDir ++ "\\mplog.log"] rfl (by decide)
      rfl rfl rfl rfl (by decide) (by decide) rfl⟩

/-- C8 counterexample: on the AgentNotFound fast-abort path the emitted
InvocationResult contains no hostname field at all (`results["hostname"]` is
only assigned after the sensor query succeeds), refuting the claim that every
emitted InvocationResult contains the normalized hostname. -/
theorem c8_counterexample :
    envAgentMissing.sensorFound = false ∧
    resultsOf (run envAgentMissing "host1") =
      [{ was_successful := some false, hostname := none }] := by
  decide

/-- C8 (amended): every InvocationResult emitted after the agent lookup
succeeds carries the normalized (uppercased, truncated-to-15) hostname,
independent of the caller's input casing or length; the AgentNotFound
fast-abort result instead contains only `was_successful = false` and omits the
hostname field. -/
theorem c8_amended (env : Env) (s : String) :
    (env.sensorFound = true →
      ((resultsOf (run env s)).all fun r =>
        r.hostname == some (normalizeHostname s)) = true) ∧
    (env.sensorFound = false →
      resultsOf (run env s) =
        [{ was_successful := some false, hostname := none }]) := by
  constructor
  · intro hf
    rw [List.all_eq_true]
    intro r hr
    rw [beq_iff_eq]
    simp only [run, hf, if_true] at hr
    simp only [resultsOf_cons, List.nil_append] at hr
    have := runLoop_results_hostname env (normalizeHostname s) (MAX_TIMEOUTS + 1) 0
      { was_successful := none, hostname := some (pyUpper (normalizeHostname s)) } none
      (pyUpper (normalizeHostname s)) rfl r hr
    rw [this, pyUpper_normalizeHostname]
  · intro hf
    simp [run, hf]

theorem c8_amended_witness :
    envSuccess.sensorFound = true ∧
    ((resultsOf (run envSuccess "host1")).all fun r =>
      r.hostname == some (normalizeHostname "host1")) = true :=
  ⟨rfl, (c8_amended envSuccess "host1").1 rfl⟩

/-- C9 counterexample: the archive entry packaged for the remote file
`C:\ProgramData\...\Support\mplog.log` on host HOST1 is named
`HOST1-mplog.log.txt`, not `HOST1-mplog.log`: the code formats each entry as
`'{0}-{1}.txt'`, appending a `.txt` suffix after the hostname, hyphen and base
name, so the claim that nothing else is appended is false. -/
theorem c9_counterexample :
    zipEntriesOf (run envSuccess "host1") = ["HOST1-mplog.log.txt"] ∧
    envSuccess.sensorHostname = "HOST1" ∧
    posixBasename (winToPosix (msAvDir ++ "\\mplog.log")) = "mplog.log" ∧
    zipEntriesOf (run envSuccess "host1") ≠ ["HOST1" ++ "-" ++ "mplog.log"] := by
  decide

/-- C9 (amended): every entry placed in the packaged archive is named
`<hostname>-<original filename>.txt` — the sensor's hostname, a hyphen, the
remote file's base name, and a `.txt` suffix. -/
theorem c9_amended (env : Env) (s : String) (sid : Nat) (files : List String)
    (hf : env.sensorFound = true)
    (hon : (env.attempt 0).initiallyOnline = true)
    (hinc : (env.attempt 0).incident = IncidentOutcome.found)
    (hopen : (env.attempt 0).sessionOpen = OpenOutcome.ok sid)
    (hdisc : discovery (env.attempt 0) = Except.ok files)
    (hne : files ≠ [])
    (hfetch : ∀ f ∈ files, (env.attempt 0).fetch f = FetchOutcome.ok)
    (hpost : (env.attempt 0).post = PostOutcome.ok) :
    zipEntriesOf (run env s) = files.map (zipEntryName env.sensorHostname) ∧
    files.map (zipEntryName env.sensorHostname) =
      files.map fun f =>
        env.sensorHostname ++ "-" ++ posixBasename (winToPosix f) ++ ".txt" := by
  set nh := normalizeHostname s with hnh
  set rc0 : RDict := { was_successful := none, hostname := some (pyUpper nh) } with hrc0
  have hie : files.isEmpty = false := by
    cases files with
    | nil => exact absurd rfl hne
    | cons a l => rfl
  have hext := extractLoop_all_ok env.sensorHostname (env.attempt 0).fetch files hfetch
  have hA : runAttempt nh env (env.attempt 0) rc0 none =
      ⟨[Event.status ("[INFO] Establishing session to CB Sensor #" ++
          toString env.sensorId ++ " (" ++ env.sensorHostname ++ ")"),
        Event.openSession sid,
        Event.status ("[SUCCESS] Connected on Session #" ++ toString sid ++
          " to CB Sensor #" ++ toString env.sensorId ++ " (" ++
          env.sensorHostname ++ ")")] ++
       (files.map fun x => Event.zipEntry (zipEntryName env.sensorHostname x)) ++
       [Event.attach (env.sensorHostname ++ "-AV_Logs.zip"),
        Event.status "[SUCCESS] Posted ZIP file of AV logs to the incident as an attachment!"],
       AttemptSig.succeeded, some sid⟩ := by
    simp [runAttempt, hon, hinc, hopen, hdisc, hie, hext, hpost]
  have hcl : classify env (env.attempt 0) = AttemptSig.succeeded := by
    rw [← runAttempt_sig nh env (env.attempt 0) rc0 none, hA]
  have hrun : run env s = Event.lookup ("hostname:" ++ nh) ::
      runLoop env nh 4 0 rc0 none := by
    simp [run, hf, MAX_TIMEOUTS, hrc0]
  rw [hrun, runLoop_success_step env nh 4 0 rc0 none (by decide) (by decide) hcl, hA]
  constructor
  · simp [closesFor, zipEntriesOf_map]
  · simp [zipEntryName]

theorem c9_amended_witness :
    envSuccess.sensorFound = true ∧
    discovery (envSuccess.attempt 0) = Except.ok [msAvDir ++ "\\mplog.log"] ∧
    (zipEntriesOf (run envSuccess "host1") =
      [msAvDir ++ "\\mplog.log"].map (zipEntryName envSuccess.sensorHostname) ∧
    [msAvDir ++ "\\mplog.log"].map (zipEntryName envSuccess.sensorHostname) =
      [msAvDir ++ "\\mplog.log"].map fun f =>
        envSuccess.sensorHostname ++ "-" ++ posixBasename (winToPosix f) ++ ".txt") :=
  ⟨rfl, rfl,
    c9_amended envSuccess "host1" 9 [msAvDir ++ "\\mplog.log"] rfl rfl rfl rfl
      rfl (by decide) (by decide) rfl⟩

/-- C10: during log-file discovery, for each candidate location independently,
a non-timeout listing failure (of the existence probe or of the glob listing)
is absorbed locally — the location contributes nothing and discovery proceeds —
while a timeout from either listing call propagates out of discovery
immediately, and an attempt whose discovery times out is classified for the
timeout-retry handler. -/
theorem c10_listing_error_policy (env : Env) (a : AttemptEnv) (sid : Nat)
    (dir : String) (g : ListingOutcome) (es : List DirEntry)
    (hon : a.initiallyOnline = true)
    (hinc : a.incident = IncidentOutcome.found)
    (hopen : a.sessionOpen = OpenOutcome.ok sid)
    (htime : discovery a = Except.error ()) :
    locationFiles dir ListingOutcome.err g = Except.ok [] ∧
    locationFiles dir (ListingOutcome.ok es) ListingOutcome.err = Except.ok [] ∧
    locationFiles dir ListingOutcome.timeout g = Except.error () ∧
    locationFiles dir (ListingOutcome.ok es) ListingOutcome.timeout =
      Except.error () ∧
    (a.loc1probe = ListingOutcome.err →
      discovery a = locationFiles wdAvDir a.loc2probe a.loc2glob) ∧
    (a.loc1probe = ListingOutcome.timeout → discovery a = Except.error ()) ∧
    classify env a = AttemptSig.timedOut := by
  refine ⟨rfl, rfl, rfl, rfl, ?_, ?_, ?_⟩
  · intro h
    have h1 : locationFiles msAvDir a.loc1probe a.loc1glob = Except.ok [] := by
      rw [h, locationFiles]
    cases hw : locationFiles wdAvDir a.loc2probe a.loc2glob with
    | error u =>
      cases u
      simp only [discovery, h1, hw]
    | ok f2 =>
      simp only [discovery, h1, hw, List.nil_append]
  · intro h
    have h1 : locationFiles msAvDir a.loc1probe a.loc1glob = Except.error () := by
      rw [h, locationFiles]
    simp only [discovery, h1]
  · simp [classify, runAttempt, hon, hinc, hopen, htime]

theorem c10_listing_error_policy_witness :
    (envListTimeout.attempt 0).loc1probe = ListingOutcome.timeout ∧
    discovery (envListTimeout.attempt 0) = Except.error () ∧
    (locationFiles msAvDir ListingOutcome.err ListingOutcome.err = Except.ok [] ∧
    locationFiles msAvDir (ListingOutcome.ok []) ListingOutcome.err = Except.ok [] ∧
    locationFiles msAvDir ListingOutcome.timeout ListingOutcome.err =
      Except.error () ∧
    locationFiles msAvDir (ListingOutcome.ok []) ListingOutcome.timeout =
      Except.error () ∧
    ((envListTimeout.attempt 0).loc1probe = ListingOutcome.err →
      discovery (envListTimeout.attempt 0) =
        locationFiles wdAvDir (envListTimeout.attempt 0).loc2probe
          (envListTimeout.attempt 0).loc2glob) ∧
    ((envListTimeout.attempt 0).loc1probe = ListingOutcome.timeout →
      discovery (envListTimeout.attempt 0) = Except.error ()) ∧
    classify envListTimeout (envListTimeout.attempt 0) = AttemptSig.timedOut) :=
  ⟨rfl, rfl,
    c10_listing_error_policy envListTimeout (envListTimeout.attempt 0) 4 msAvDir
      ListingOutcome.err [] rfl rfl rfl rfl⟩

end CbAvLogs
